import Mathlib

/-
  Shallow embedding of the event-dispatch harness in src/test.py.

  The harness reads newline-delimited JSON requests, dispatches each to a
  lazily loaded handler module (src/another_main.py is one such handler),
  runs each lifecycle call under a thread-based timeout with stdout
  redirected to a capturing interceptor, and writes JSON responses.

  Modelling conventions:
  - JSON values are the mutual inductive Json / JsonList / JsonPairs, so that
    every function on them is structural recursion and kernel-reducible.
    Python None and JSON null are the same object and are both Json.null.
    Numbers are modelled as integers (no claim exercises floats).
  - json.dumps (default options: ensure_ascii, separators comma-space and
    colon-space, insertion order) is Json.dumps below; Python str() and
    repr() as used by f-strings are Json.pyStr / Json.pyRepr.
  - The two output streams are lists of written chunks; print(x) performs
    two writes, the text and the newline, exactly as CPython print does,
    which is what the stdout interceptor observes.
  - json.loads and stream framing live at the model boundary: an input line
    arrives either as badDecode (json.loads raises ValueError) or as the
    decoded Json value. A handler call is an oracle CallOutcome recorded on
    the line: the writes it performs on sys.stdout, and whether it returns
    a value, raises, or fails to finish before the deadline. The thread in
    execute_with_timeout shares memory with the dispatcher, so the state
    effects of the call are applied before the timeout decision, exactly as
    in the source.
-/

namespace EventHost

mutual

inductive Json where
  | null : Json
  | bool (b : Bool) : Json
  | num (n : Int) : Json
  | str (s : String) : Json
  | arr (xs : JsonList) : Json
  | obj (kvs : JsonPairs) : Json

inductive JsonList where
  | nil : JsonList
  | cons (hd : Json) (tl : JsonList) : JsonList

inductive JsonPairs where
  | nil : JsonPairs
  | cons (k : String) (v : Json) (tl : JsonPairs) : JsonPairs

end

/-- Lower-case hexadecimal digit, as CPython uses in unicode escapes. -/
def hexDigit (n : Nat) : Char :=
  if n < 10 then Char.ofNat (48 + n) else Char.ofNat (87 + n)

/-- Four lower-case hex digits. -/
def hex4 (n : Nat) : String :=
  String.mk [hexDigit (n / 4096 % 16), hexDigit (n / 256 % 16),
             hexDigit (n / 16 % 16), hexDigit (n % 16)]

/-- One character of json.dumps output with default ensure_ascii: quote and
backslash and the control characters get short escapes, every character
outside the printable ASCII range an escape of the form backslash-u, with a
surrogate pair beyond the basic plane. -/
def jsonEscapeChar (c : Char) : String :=
  if c = Char.ofNat 34 then "\\\""
  else if c = Char.ofNat 92 then "\\\\"
  else if c = Char.ofNat 10 then "\\n"
  else if c = Char.ofNat 13 then "\\r"
  else if c = Char.ofNat 9 then "\\t"
  else if c = Char.ofNat 8 then "\\b"
  else if c = Char.ofNat 12 then "\\f"
  else if c.toNat < 32 then "\\u" ++ hex4 c.toNat
  else if c.toNat < 127 then String.mk [c]
  else if c.toNat < 65536 then "\\u" ++ hex4 c.toNat
  else
    "\\u" ++ hex4 (55296 + (c.toNat - 65536) / 1024) ++
    "\\u" ++ hex4 (56320 + (c.toNat - 65536) % 1024)

/-- A JSON string literal as json.dumps renders it. -/
def jsonQuote (s : String) : String :=
  "\"" ++ String.join (s.toList.map jsonEscapeChar) ++ "\""

mutual

/-- json.dumps with its default options, as called throughout test.py. -/
def Json.dumps : Json → String
  | .null => "null"
  | .bool true => "true"
  | .bool false => "false"
  | .num n => toString n
  | .str s => jsonQuote s
  | .arr xs => "[" ++ JsonList.dumpsItems xs ++ "]"
  | .obj kvs => "\x7b" ++ JsonPairs.dumpsItems kvs ++ "\x7d"

/-- Array elements joined by comma-space. -/
def JsonList.dumpsItems : JsonList → String
  | .nil => ""
  | .cons x tl =>
      Json.dumps x ++ (match tl with | .nil => "" | .cons _ _ => ", ") ++
      JsonList.dumpsItems tl

/-- Object members joined by comma-space, keys separated by colon-space. -/
def JsonPairs.dumpsItems : JsonPairs → String
  | .nil => ""
  | .cons k v tl =>
      jsonQuote k ++ ": " ++ Json.dumps v ++
      (match tl with | .nil => "" | .cons _ _ _ => ", ") ++
      JsonPairs.dumpsItems tl

end

/-- One character of Python repr output for a string. The quote-choice
refinement of repr (switching to double quotes when the text holds a single
quote) and escapes of other control characters are not modelled; no value in
this development exercises them. -/
def reprEscapeChar (c : Char) : String :=
  if c = Char.ofNat 92 then "\\\\"
  else if c = Char.ofNat 39 then "\\\x27"
  else if c = Char.ofNat 10 then "\\n"
  else if c = Char.ofNat 13 then "\\r"
  else if c = Char.ofNat 9 then "\\t"
  else String.mk [c]

mutual

/-- Python repr of a decoded JSON value, as an f-string renders values
nested inside containers. -/
def Json.pyRepr : Json → String
  | .null => "None"
  | .bool true => "True"
  | .bool false => "False"
  | .num n => toString n
  | .str s => "\x27" ++ String.join (s.toList.map reprEscapeChar) ++ "\x27"
  | .arr xs => "[" ++ JsonList.reprItems xs ++ "]"
  | .obj kvs => "\x7b" ++ JsonPairs.reprItems kvs ++ "\x7d"

/-- Python repr of list elements. -/
def JsonList.reprItems : JsonList → String
  | .nil => ""
  | .cons x tl =>
      Json.pyRepr x ++ (match tl with | .nil => "" | .cons _ _ => ", ") ++
      JsonList.reprItems tl

/-- Python repr of dict items. -/
def JsonPairs.reprItems : JsonPairs → String
  | .nil => ""
  | .cons k v tl =>
      "\x27" ++ String.join (k.toList.map reprEscapeChar) ++ "\x27" ++ ": " ++
      Json.pyRepr v ++
      (match tl with | .nil => "" | .cons _ _ _ => ", ") ++
      JsonPairs.reprItems tl

end

/-- Python str of a decoded JSON value: a string renders as itself, any
other value as its repr. This is what an f-string interpolation does. -/
def Json.pyStr : Json → String
  | .str s => s
  | v => Json.pyRepr v

/-- Python type name of a decoded JSON value. -/
def Json.pyTypeName : Json → String
  | .null => "NoneType"
  | .bool _ => "bool"
  | .num _ => "int"
  | .str _ => "str"
  | .arr _ => "list"
  | .obj _ => "dict"

/-- Python dict.get with default None. Decoded objects are assumed to carry
distinct keys, as json.loads guarantees by keeping the last occurrence. -/
def JsonPairs.get : JsonPairs → String → Json
  | .nil, _ => .null
  | .cons k v tl, key => if k = key then v else JsonPairs.get tl key

/-- Python equality between a decoded value and a string literal: true only
when the value is exactly that string. -/
def Json.beqStr : Json → String → Bool
  | .str s, t => s == t
  | _, _ => false

/-- Whether a decoded value is a dict. -/
def Json.isObj : Json → Bool
  | .obj _ => true
  | _ => false

/-- One stack frame of a traceback: the file it comes from and the text
that traceback.format_list renders for it (the source line shown there
depends on the filesystem and is folded into the rendered text). -/
structure Frame where
  co_filename : String
  formatted : String

/-- A raised Python exception, split the way the dispatcher splits them:
TimeoutError against everything else. A non-timeout exception carries its
str() message and its traceback chain. -/
inductive Exn where
  | timeoutErr (msg : String)
  | otherErr (msg : String) (tb : List Frame)

/-- Oracle for one handler-function call: the writes it performs on
sys.stdout, and whether it returns a value (Json.null for a Python None
return), raises, or is still running when the deadline elapses. -/
inductive CallOutcome where
  | returns (writes : List String) (r : Json)
  | raises (writes : List String) (e : Exn)
  | hangs (writes : List String)

/-- Result of running the threaded target of execute_with_timeout: the
target stored a result, stored an exception, or the thread is still alive
when join times out. -/
inductive Res where
  | ok (r : Json)
  | exc (e : Exn)
  | hung

/-- Which of the three lifecycle attributes the loaded module object ends
up carrying (hasattr on the module). -/
structure ModuleSpec where
  has_on_create : Bool
  has_on_receive : Bool
  has_on_destroy : Bool

/-- Environment of the dynamic load, fixed for the process: whether the
handler file exists, what attributes the module object carries after
exec_module ran (possibly partially), and whether exec_module raises. In
the source, self.module is assigned before exec_module runs, so even a
failing exec leaves the module field set. -/
structure LoadEnv where
  fileExists : Bool
  caps : ModuleSpec
  execError : Option String

/-- The DataProcessor object: constructor fields plus the mutable module
field, None until a load reaches the assignment. -/
structure DataProcessor where
  filename : String
  timeout : Nat
  module : Option ModuleSpec

/-- What sys.stdout currently is: the real stream, or the
OutputInterceptor wrapping it. -/
inductive Sink where
  | real
  | interceptor

/-- Observable process state: the processor, a counter of exec_module runs
(the module initialization side effects, instrumentation for the
single-load claim), the chunks written to the real stdout and to stderr,
the current sys.stdout, and the handler capabilities actually invoked. -/
structure World where
  proc : DataProcessor
  execs : Nat
  stdoutChunks : List String
  stderrChunks : List String
  sink : Sink
  calls : List String

/-- The characters Python str.strip removes by default. -/
def isSpaceChar (c : Char) : Bool :=
  c == Char.ofNat 32 || c == Char.ofNat 10 || c == Char.ofNat 9 ||
  c == Char.ofNat 13 || c == Char.ofNat 11 || c == Char.ofNat 12

/-- Drop leading and trailing whitespace from a character list. -/
def stripChars (l : List Char) : List Char :=
  ((l.dropWhile isSpaceChar).reverse.dropWhile isSpaceChar).reverse

/-- Python str.strip with no argument. -/
def pyStrip (s : String) : String :=
  String.mk (stripChars s.toList)

/-- get_standard_output_message: the wrapper the interceptor applies to
each captured write. -/
def get_standard_output_message (message : String) : String :=
  Json.dumps (.obj (.cons "Event" (.str "StandardOutput")
    (.cons "Status" (.str "ok") (.cons "Data" (.str message) .nil)))) ++ "\n"

/-- One write to sys.stdout. The real stream records the chunk; the
OutputInterceptor drops a whitespace-only write and otherwise writes the
wrapped, stripped text straight to the real stream and flushes. -/
def World.stdoutWrite (w : World) (message : String) : World :=
  match w.sink with
  | .real => { w with stdoutChunks := w.stdoutChunks ++ [message] }
  | .interceptor =>
      if pyStrip message = "" then w
      else { w with stdoutChunks :=
              w.stdoutChunks ++ [get_standard_output_message (pyStrip message)] }

/-- The sequence of writes a handler call performs on sys.stdout. -/
def World.applyWrites (w : World) (ws : List String) : World :=
  ws.foldl World.stdoutWrite w

/-- print(x) on sys.stdout: one write of the text, one write of the
newline. -/
def World.printStdout (w : World) (message : String) : World :=
  (w.stdoutWrite message).stdoutWrite "\n"

/-- print(x, file=sys.stderr): stderr is never intercepted. -/
def World.printStderr (w : World) (message : String) : World :=
  { w with stderrChunks := w.stderrChunks ++ [message, "\n"] }

/-- The response line print_output encodes: json.dumps of the dict with
fields Event, Status, Data in that order. -/
def responseLine (ev : Json) (status : String) (message : String) : String :=
  Json.dumps (.obj (.cons "Event" ev
    (.cons "Status" (.str status) (.cons "Data" (.str message) .nil))))

/-- print_output: one response line on sys.stdout, then flush. -/
def print_output (ev : Json) (status : String) (message : String)
    (w : World) : World :=
  w.printStdout (responseLine ev status message)

/-- The payload print_error encodes into the Data field of every error
response: json.dumps of the dict with status error and the
see-error-log message. -/
def errPayload : String :=
  Json.dumps (.obj (.cons "status" (.str "error")
    (.cons "message" (.str "see error log for details") .nil)))

/-- print_error: the diagnostic to stderr (with an extra blank line), then
the error response through print_output. -/
def print_error (ev : Json) (message : String) (w : World) : World :=
  print_output ev "error" errPayload (w.printStderr (message ++ "\n"))

/-- _load_module: FileNotFoundError when the path is not a file; otherwise
assign self.module and run exec_module, which may itself raise after the
assignment. The exec counter records each exec_module run. -/
def _load_module (env : LoadEnv) (w : World) : World × Option Exn :=
  if env.fileExists then
    let w1 : World :=
      { w with proc := { w.proc with module := some env.caps },
               execs := w.execs + 1 }
    match env.execError with
    | some m => (w1, some (.otherErr m []))
    | none => (w1, none)
  else
    (w, some (.otherErr ("File " ++ w.proc.filename ++ " does not exist") []))

/-- Invoke the handler capability: record the invocation, apply the writes
the handler performs, and produce the stored outcome. -/
def runHandlerCall (name : String) (b : CallOutcome) (w : World) :
    World × Res :=
  let w1 : World := { w with calls := w.calls ++ [name] }
  match b with
  | .returns ws r => (w1.applyWrites ws, .ok r)
  | .raises ws e => (w1.applyWrites ws, .exc e)
  | .hangs ws => (w1.applyWrites ws, .hung)

/-- Continuation of an execute_on call once the lazy load has run: a load
error becomes the stored exception of the thread target; otherwise the
hasattr check selects between invoking the handler function and raising
the missing-capability AttributeError. -/
def afterLoad (name : String) (hasCap : Bool) (b : CallOutcome)
    (l : World × Option Exn) : World × Res :=
  match l with
  | (w1, some e) => (w1, .exc e)
  | (w1, none) =>
      if hasCap then runHandlerCall name b w1
      else (w1, .exc (.otherErr
        ("The module does not have an \x27" ++ name ++ "\x27 function.") []))

/-- execute_on_create: lazy load when module is None, then hasattr check,
then the call. Every raise inside becomes the stored exception of the
thread target. -/
def execute_on_create (env : LoadEnv) (b : CallOutcome) (_data : Json)
    (w : World) : World × Res :=
  match w.proc.module with
  | some m =>
      if m.has_on_create then runHandlerCall "on_create" b w
      else (w, .exc (.otherErr
        "The module does not have an \x27on_create\x27 function." []))
  | none => afterLoad "on_create" env.caps.has_on_create b (_load_module env w)

/-- execute_on_receive, same shape as execute_on_create. -/
def execute_on_receive (env : LoadEnv) (b : CallOutcome) (_data : Json)
    (w : World) : World × Res :=
  match w.proc.module with
  | some m =>
      if m.has_on_receive then runHandlerCall "on_receive" b w
      else (w, .exc (.otherErr
        "The module does not have an \x27on_receive\x27 function." []))
  | none => afterLoad "on_receive" env.caps.has_on_receive b (_load_module env w)

/-- execute_on_destroy, same shape but with no data argument. -/
def execute_on_destroy (env : LoadEnv) (b : CallOutcome) (w : World) :
    World × Res :=
  match w.proc.module with
  | some m =>
      if m.has_on_destroy then runHandlerCall "on_destroy" b w
      else (w, .exc (.otherErr
        "The module does not have an \x27on_destroy\x27 function." []))
  | none => afterLoad "on_destroy" env.caps.has_on_destroy b (_load_module env w)

/-- execute_with_timeout: join the thread for the deadline; a live thread
means TimeoutError, a stored exception is re-raised, otherwise the stored
result is returned. The thread shares memory, so the state effects of the
call are already in the world. -/
def execute_with_timeout (timeout : Nat) (call : World × Res) :
    World × Except Exn Json :=
  match call with
  | (w, .hung) => (w, .error (.timeoutErr
      ("Execution timed out after " ++ toString timeout ++ " seconds")))
  | (w, .exc e) => (w, .error e)
  | (w, .ok r) => (w, .ok r)

/-- The chain of traceback nodes of an exception: each node is one frame
together with the rest of the chain below it (tb and its tb_next links). -/
def tbChain : List Frame → List (List Frame)
  | [] => []
  | f :: tl => (f :: tl) :: tbChain tl

/-- Whether one character list starts with another. -/
def charsStartWith : List Char → List Char → Bool
  | _, [] => true
  | [], _ :: _ => false
  | c :: cs, d :: ds => c == d && charsStartWith cs ds

/-- Whether one character list holds another as a contiguous run. -/
def charsContain : List Char → List Char → Bool
  | [], needle => needle.isEmpty
  | c :: cs, needle => charsStartWith (c :: cs) needle || charsContain cs needle

/-- The Python substring test: needle in hay. -/
def strContains (hay needle : String) : Bool :=
  charsContain hay.toList needle.toList

/-- filter_processor_traceback: walk the traceback nodes, keep those whose
frame file contains the processor filename, and format the extracted
traceback of the first kept node — that is, every frame from the first
matching one down to the end of the chain. With no match, the fixed
placeholder. -/
def filter_processor_traceback (filename : String) (tb : List Frame) :
    String :=
  let filtered_tb := (tbChain tb).filter (fun node =>
    match node with
    | [] => false
    | f :: _ => strContains f.co_filename filename)
  match filtered_tb with
  | [] => "No relevant stack trace found from the processor script."
  | first :: _ => String.join (first.map Frame.formatted)

/-- The default payload substituted for a None handler result. -/
def defaultResult : Json :=
  .obj (.cons "status" (.str "default")
    (.cons "message" (.str "No result generated") .nil))

/-- One line of input as the loop sees it: json.loads failed, or the
decoded value together with the oracle for the handler call the line may
trigger. -/
inductive Line where
  | badDecode (raw : String)
  | decoded (v : Json) (b : CallOutcome)

/-- The body of the with block: route the event to the matching
execute_with_timeout call, or print the unknown-event error (still under
the interceptor) and signal continue with none. -/
def dispatchEvent (env : LoadEnv) (b : CallOutcome)
    (event_type event_data : Json) (w : World) :
    World × Option (Except Exn Json) :=
  if event_type.beqStr "OnCreate" then
    let r := execute_with_timeout w.proc.timeout
      (execute_on_create env b event_data w)
    (r.1, some r.2)
  else if event_type.beqStr "OnReceive" then
    let r := execute_with_timeout w.proc.timeout
      (execute_on_receive env b event_data w)
    (r.1, some r.2)
  else if event_type.beqStr "OnDestroy" then
    let r := execute_with_timeout w.proc.timeout
      (execute_on_destroy env b w)
    (r.1, some r.2)
  else
    (print_error event_type
      ("Unknown event type: " ++ event_type.pyStr) w, none)

/-- What runs after the with block for a dispatched event: the two except
handlers, the default substitution for a None result, the dict check and
the success response. -/
def handleOutcome (event_type : Json) (res : Except Exn Json) (w : World) :
    World :=
  match res with
  | .error (.timeoutErr _) =>
      print_error event_type "Error: Function timed out" w
  | .error (.otherErr m tb) =>
      print_error event_type
        ("Error: " ++ m ++ "\nProcessor traceback:\n" ++
          filter_processor_traceback w.proc.filename tb) w
  | .ok r =>
      let result := match r with
        | .null => defaultResult
        | other => other
      match result with
      | .obj _ => print_output event_type "ok" result.dumps w
      | _ =>
          print_error event_type
            ("Invalid result format. Expecting a dictionary, got " ++
              result.pyTypeName ++ ": " ++ result.pyStr) w

/-- One iteration of the start_listening loop body. The second component
is an exception that escapes the loop: ValueError on a line that fails to
decode, AttributeError from .get on a decoded non-dict. The stdout
interceptor is entered for the dispatch and restored on every exit path
of the with block; the except handlers and the result checks run after
the restoration, while the unknown-event print_error runs inside it. -/
def processLine (env : LoadEnv) (line : Line) (w : World) :
    World × Option Exn :=
  match line with
  | .badDecode raw => (w, some (.otherErr ("Invalid input format: " ++ raw) []))
  | .decoded v b =>
    match v with
    | .obj kvs =>
      let d := dispatchEvent env b (kvs.get "Event") (kvs.get "Data")
        { w with sink := .interceptor }
      let wOut : World := { d.1 with sink := w.sink }
      match d.2 with
      | none => (wOut, none)
      | some res => (handleOutcome (kvs.get "Event") res wOut, none)
    | _ =>
      (w, some (.otherErr
        ("\x27" ++ v.pyTypeName ++ "\x27 object has no attribute \x27get\x27")
        []))

/-- start_listening: the sequential loop over the input lines; an escaping
exception ends the loop with the remaining lines unread. -/
def start_listening (env : LoadEnv) (lines : List Line) (w : World) :
    World × Option Exn :=
  match lines with
  | [] => (w, none)
  | l :: rest =>
    match processLine env l w with
    | (w1, some e) => (w1, some e)
    | (w1, none) => start_listening env rest w1

/-- Fresh process state for a DataProcessor built with the given filename
and timeout. -/
def World.init (filename : String) (timeout : Nat) : World :=
  { proc := { filename := filename, timeout := timeout, module := none },
    execs := 0, stdoutChunks := [], stderrChunks := [], sink := .real,
    calls := [] }

/-- The exact error response line print_error emits for an event. -/
def errorLine (ev : Json) : String :=
  responseLine ev "error" errPayload

/-- The exact success response line for an event and an encoded payload. -/
def okLine (ev : Json) (payload : String) : String :=
  responseLine ev "ok" payload

/-- Which capability flag a recognized event name selects on the module. -/
def capFor (m : ModuleSpec) (ename : String) : Bool :=
  if ename = "OnCreate" then m.has_on_create
  else if ename = "OnReceive" then m.has_on_receive
  else m.has_on_destroy

/-- The handler function a recognized event name invokes. -/
def capMethodName (ename : String) : String :=
  if ename = "OnCreate" then "on_create"
  else if ename = "OnReceive" then "on_receive"
  else "on_destroy"

/-- A request object with the given Event name and Data payload, as a
decoded input line carries it. -/
def requestObj (ename : String) (data : Json) : Json :=
  .obj (.cons "Event" (.str ename) (.cons "Data" data .nil))

/-- Load environment of a handler file that exists, defines all three
lifecycle functions, and initializes without error. -/
def env0 : LoadEnv :=
  { fileExists := true,
    caps := { has_on_create := true, has_on_receive := true,
              has_on_destroy := true },
    execError := none }

/-- Fresh process state over the example handler path and the example
timeout of sixty seconds. -/
def w0 : World :=
  World.init "another_main.py" 60

/-- A module spec carrying all three lifecycle capabilities. -/
def allCaps : ModuleSpec :=
  { has_on_create := true, has_on_receive := true, has_on_destroy := true }

/-- Process state in which the handler module is already loaded with all
three capabilities. -/
def wLoaded : World :=
  { w0 with proc := { w0.proc with module := some allCaps } }

/-- Stripping a character list that starts with an opening brace and ends
with a closing brace changes nothing: both delimiters are non-space. -/
theorem stripChars_braced (m : List Char) :
    stripChars (Char.ofNat 123 :: (m ++ [Char.ofNat 125])) =
      Char.ofNat 123 :: (m ++ [Char.ofNat 125]) := by
  unfold stripChars
  rw [List.dropWhile_cons_of_neg (by decide)]
  rw [show (Char.ofNat 123 :: (m ++ [Char.ofNat 125])).reverse
        = Char.ofNat 125 :: (m.reverse ++ [Char.ofNat 123]) by simp]
  rw [List.dropWhile_cons_of_neg (by decide)]
  simp

/-- json.dumps of a dict has no surrounding whitespace, so str.strip
leaves it unchanged. -/
theorem pyStrip_dumps_obj (kvs : JsonPairs) :
    pyStrip (Json.dumps (.obj kvs)) = Json.dumps (.obj kvs) := by
  have hdata : (Json.dumps (.obj kvs)).toList
      = Char.ofNat 123 :: ((JsonPairs.dumpsItems kvs).toList ++ [Char.ofNat 125]) := by
    show (Json.dumps (.obj kvs)).data = _
    rw [show Json.dumps (.obj kvs)
          = "\x7b" ++ JsonPairs.dumpsItems kvs ++ "\x7d" from rfl]
    rw [String.data_append, String.data_append]
    rfl
  unfold pyStrip
  rw [hdata, stripChars_braced, ← hdata]
  rfl

/-- json.dumps of a dict is not the empty string. -/
theorem dumps_obj_ne_empty (kvs : JsonPairs) : Json.dumps (.obj kvs) ≠ "" := by
  intro h
  have : (Json.dumps (.obj kvs)).data = ("" : String).data := by rw [h]
  rw [show Json.dumps (.obj kvs)
        = "\x7b" ++ JsonPairs.dumpsItems kvs ++ "\x7d" from rfl] at this
  rw [String.data_append, String.data_append] at this
  simp at this

/-- A newline write is whitespace-only and is dropped by the
interceptor. -/
theorem pyStrip_newline : pyStrip "\n" = "" := by decide

/-- responseLine is a dumped dict, hence non-empty and strip-invariant. -/
theorem pyStrip_responseLine (ev : Json) (st msg : String) :
    pyStrip (responseLine ev st msg) = responseLine ev st msg :=
  pyStrip_dumps_obj _

/-- responseLine is never the empty string. -/
theorem responseLine_ne_empty (ev : Json) (st msg : String) :
    responseLine ev st msg ≠ "" :=
  dumps_obj_ne_empty _

/-- A stdout write only changes the recorded stdout chunks. -/
theorem stdoutWrite_only_stdout (w : World) (s : String) :
    (w.stdoutWrite s).proc = w.proc ∧ (w.stdoutWrite s).execs = w.execs ∧
    (w.stdoutWrite s).sink = w.sink ∧ (w.stdoutWrite s).calls = w.calls ∧
    (w.stdoutWrite s).stderrChunks = w.stderrChunks := by
  unfold World.stdoutWrite
  cases hsk : w.sink
  · simp [hsk]
  · simp only [hsk]
    split <;> simp [hsk]

/-- A sequence of stdout writes only changes the recorded stdout chunks. -/
theorem applyWrites_only_stdout (ws : List String) : ∀ w : World,
    (w.applyWrites ws).proc = w.proc ∧ (w.applyWrites ws).execs = w.execs ∧
    (w.applyWrites ws).sink = w.sink ∧ (w.applyWrites ws).calls = w.calls ∧
    (w.applyWrites ws).stderrChunks = w.stderrChunks := by
  induction ws with
  | nil => intro w; exact ⟨rfl, rfl, rfl, rfl, rfl⟩
  | cons h t ih =>
      intro w
      have hw : w.applyWrites (h :: t) = (w.stdoutWrite h).applyWrites t := rfl
      rw [hw]
      obtain ⟨p1, p2, p3, p4, p5⟩ := ih (w.stdoutWrite h)
      obtain ⟨q1, q2, q3, q4, q5⟩ := stdoutWrite_only_stdout w h
      exact ⟨p1.trans q1, p2.trans q2, p3.trans q3, p4.trans q4, p5.trans q5⟩

/-- print_output writes exactly one response: on the real stream the line
and its newline, under the interceptor the wrapped line; nothing else in
the world changes. -/
theorem print_output_spec (ev : Json) (st msg : String) (w : World) :
    print_output ev st msg w =
      { w with stdoutChunks := w.stdoutChunks ++
          (match w.sink with
           | .real => [responseLine ev st msg, "\n"]
           | .interceptor =>
               [get_standard_output_message (responseLine ev st msg)]) } := by
  unfold print_output World.printStdout World.stdoutWrite
  cases hsk : w.sink
  · simp [hsk]
  · simp only [hsk]
    rw [if_neg (by rw [pyStrip_responseLine]; exact responseLine_ne_empty ev st msg)]
    simp [pyStrip_newline, pyStrip_responseLine]

/-- print_error writes the diagnostic (and a blank line) to stderr and
exactly one error response through print_output; nothing else in the
world changes. -/
theorem print_error_spec (ev : Json) (msg : String) (w : World) :
    print_error ev msg w =
      { w with
        stderrChunks := w.stderrChunks ++ [msg ++ "\n", "\n"],
        stdoutChunks := w.stdoutChunks ++
          (match w.sink with
           | .real => [errorLine ev, "\n"]
           | .interceptor => [get_standard_output_message (errorLine ev)]) } := by
  unfold print_error World.printStderr
  rw [print_output_spec]
  simp [errorLine]

/-- print_output changes no field besides the stdout chunks. -/
theorem print_output_frame (ev : Json) (st msg : String) (w : World) :
    (print_output ev st msg w).proc = w.proc ∧
    (print_output ev st msg w).execs = w.execs ∧
    (print_output ev st msg w).sink = w.sink ∧
    (print_output ev st msg w).calls = w.calls := by
  rw [print_output_spec]
  exact ⟨rfl, rfl, rfl, rfl⟩

/-- print_error changes no field besides the two chunk lists. -/
theorem print_error_frame (ev : Json) (msg : String) (w : World) :
    (print_error ev msg w).proc = w.proc ∧
    (print_error ev msg w).execs = w.execs ∧
    (print_error ev msg w).sink = w.sink ∧
    (print_error ev msg w).calls = w.calls := by
  rw [print_error_spec]
  exact ⟨rfl, rfl, rfl, rfl⟩

/-- The world of a timed-out, failed or completed call passes through
execute_with_timeout unchanged. -/
theorem execute_with_timeout_fst (t : Nat) (c : World × Res) :
    (execute_with_timeout t c).1 = c.1 := by
  rcases c with ⟨w, r⟩
  cases r <;> rfl

/-- A handler invocation records its name and otherwise only writes
output. -/
theorem runHandlerCall_frame (n : String) (b : CallOutcome) (w : World) :
    (runHandlerCall n b w).1.proc = w.proc ∧
    (runHandlerCall n b w).1.execs = w.execs ∧
    (runHandlerCall n b w).1.sink = w.sink ∧
    (runHandlerCall n b w).1.calls = w.calls ++ [n] := by
  cases b with
  | returns ws r =>
      obtain ⟨p1, p2, p3, p4, _⟩ :=
        applyWrites_only_stdout ws { w with calls := w.calls ++ [n] }
      exact ⟨p1, p2, p3, p4⟩
  | raises ws e =>
      obtain ⟨p1, p2, p3, p4, _⟩ :=
        applyWrites_only_stdout ws { w with calls := w.calls ++ [n] }
      exact ⟨p1, p2, p3, p4⟩
  | hangs ws =>
      obtain ⟨p1, p2, p3, p4, _⟩ :=
        applyWrites_only_stdout ws { w with calls := w.calls ++ [n] }
      exact ⟨p1, p2, p3, p4⟩

/-- _load_module either leaves the world unchanged (missing file) or loads
the module and bumps the exec counter once. -/
theorem _load_module_module (env : LoadEnv) (w : World) :
    ((_load_module env w).1.proc.module = w.proc.module ∧
     (_load_module env w).1.execs = w.execs) ∨
    ((_load_module env w).1.proc.module = some env.caps ∧
     (_load_module env w).1.execs = w.execs + 1) := by
  unfold _load_module
  cases hf : env.fileExists
  · left; simp
  · right; cases env.execError <;> simp

/-- _load_module touches neither the sink nor the recorded calls nor the
output chunks. -/
theorem _load_module_frame (env : LoadEnv) (w : World) :
    (_load_module env w).1.sink = w.sink ∧
    (_load_module env w).1.calls = w.calls := by
  unfold _load_module
  cases hf : env.fileExists
  · simp
  · cases env.execError <;> simp

/-- afterLoad passes the loaded world through, whatever branch runs. -/
theorem afterLoad_frame (name : String) (hasCap : Bool) (b : CallOutcome)
    (w1 : World) (oe : Option Exn) :
    (afterLoad name hasCap b (w1, oe)).1.proc = w1.proc ∧
    (afterLoad name hasCap b (w1, oe)).1.execs = w1.execs ∧
    (afterLoad name hasCap b (w1, oe)).1.sink = w1.sink := by
  cases oe with
  | some e => exact ⟨rfl, rfl, rfl⟩
  | none =>
      simp only [afterLoad]
      split
      · obtain ⟨r1, r2, r3, _⟩ := runHandlerCall_frame name b w1
        exact ⟨r1, r2, r3⟩
      · exact ⟨rfl, rfl, rfl⟩

/-- execute_on_create restores nothing itself: the sink is whatever it was
before the call. -/
theorem execute_on_create_sink (env : LoadEnv) (b : CallOutcome) (d : Json) (w : World) :
    (execute_on_create env b d w).1.sink = w.sink := by
  rcases hm : w.proc.module with _ | m
  · simp only [execute_on_create, hm]
    rcases hl : _load_module env w with ⟨w1, oe⟩
    have hfr := _load_module_frame env w
    rw [hl] at hfr
    exact ((afterLoad_frame "on_create" env.caps.has_on_create b w1 oe).2.2).trans hfr.1
  · simp only [execute_on_create, hm]
    split
    · exact (runHandlerCall_frame "on_create" b w).2.2.1
    · rfl

/-- With the module already loaded, execute_on_create never reloads: the
module field and the exec counter are untouched. -/
theorem execute_on_create_module_some (env : LoadEnv) (b : CallOutcome) (d : Json) (w : World)
    (m : ModuleSpec) (hm : w.proc.module = some m) :
    (execute_on_create env b d w).1.proc.module = some m ∧
    (execute_on_create env b d w).1.execs = w.execs := by
  simp only [execute_on_create, hm]
  split
  · obtain ⟨r1, r2, _, _⟩ := runHandlerCall_frame "on_create" b w
    exact ⟨by rw [r1, hm], r2⟩
  · exact ⟨hm, rfl⟩

/-- From the unloaded state, execute_on_create either leaves the module
unloaded (missing file) or performs the single load. -/
theorem execute_on_create_module_none (env : LoadEnv) (b : CallOutcome) (d : Json) (w : World)
    (hm : w.proc.module = none) :
    ((execute_on_create env b d w).1.proc.module = none ∧
     (execute_on_create env b d w).1.execs = w.execs) ∨
    ((execute_on_create env b d w).1.proc.module = some env.caps ∧
     (execute_on_create env b d w).1.execs = w.execs + 1) := by
  simp only [execute_on_create, hm]
  rcases hl : _load_module env w with ⟨w1, oe⟩
  have hmod := _load_module_module env w
  rw [hl] at hmod
  obtain ⟨a1, a2, _⟩ := afterLoad_frame "on_create" env.caps.has_on_create b w1 oe
  rcases hmod with ⟨h1, h2⟩ | ⟨h1, h2⟩
  · exact Or.inl ⟨by rw [a1]; exact h1.trans hm, by rw [a2]; exact h2⟩
  · exact Or.inr ⟨by rw [a1]; exact h1, by rw [a2]; exact h2⟩

/-- execute_on_receive restores nothing itself: the sink is whatever it was
before the call. -/
theorem execute_on_receive_sink (env : LoadEnv) (b : CallOutcome) (d : Json) (w : World) :
    (execute_on_receive env b d w).1.sink = w.sink := by
  rcases hm : w.proc.module with _ | m
  · simp only [execute_on_receive, hm]
    rcases hl : _load_module env w with ⟨w1, oe⟩
    have hfr := _load_module_frame env w
    rw [hl] at hfr
    exact ((afterLoad_frame "on_receive" env.caps.has_on_receive b w1 oe).2.2).trans hfr.1
  · simp only [execute_on_receive, hm]
    split
    · exact (runHandlerCall_frame "on_receive" b w).2.2.1
    · rfl

/-- With the module already loaded, execute_on_receive never reloads: the
module field and the exec counter are untouched. -/
theorem execute_on_receive_module_some (env : LoadEnv) (b : CallOutcome) (d : Json) (w : World)
    (m : ModuleSpec) (hm : w.proc.module = some m) :
    (execute_on_receive env b d w).1.proc.module = some m ∧
    (execute_on_receive env b d w).1.execs = w.execs := by
  simp only [execute_on_receive, hm]
  split
  · obtain ⟨r1, r2, _, _⟩ := runHandlerCall_frame "on_receive" b w
    exact ⟨by rw [r1, hm], r2⟩
  · exact ⟨hm, rfl⟩

/-- From the unloaded state, execute_on_receive either leaves the module
unloaded (missing file) or performs the single load. -/
theorem execute_on_receive_module_none (env : LoadEnv) (b : CallOutcome) (d : Json) (w : World)
    (hm : w.proc.module = none) :
    ((execute_on_receive env b d w).1.proc.module = none ∧
     (execute_on_receive env b d w).1.execs = w.execs) ∨
    ((execute_on_receive env b d w).1.proc.module = some env.caps ∧
     (execute_on_receive env b d w).1.execs = w.execs + 1) := by
  simp only [execute_on_receive, hm]
  rcases hl : _load_module env w with ⟨w1, oe⟩
  have hmod := _load_module_module env w
  rw [hl] at hmod
  obtain ⟨a1, a2, _⟩ := afterLoad_frame "on_receive" env.caps.has_on_receive b w1 oe
  rcases hmod with ⟨h1, h2⟩ | ⟨h1, h2⟩
  · exact Or.inl ⟨by rw [a1]; exact h1.trans hm, by rw [a2]; exact h2⟩
  · exact Or.inr ⟨by rw [a1]; exact h1, by rw [a2]; exact h2⟩

/-- execute_on_destroy restores nothing itself: the sink is whatever it was
before the call. -/
theorem execute_on_destroy_sink (env : LoadEnv) (b : CallOutcome) (w : World) :
    (execute_on_destroy env b w).1.sink = w.sink := by
  rcases hm : w.proc.module with _ | m
  · simp only [execute_on_destroy, hm]
    rcases hl : _load_module env w with ⟨w1, oe⟩
    have hfr := _load_module_frame env w
    rw [hl] at hfr
    exact ((afterLoad_frame "on_destroy" env.caps.has_on_destroy b w1 oe).2.2).trans hfr.1
  · simp only [execute_on_destroy, hm]
    split
    · exact (runHandlerCall_frame "on_destroy" b w).2.2.1
    · rfl

/-- With the module already loaded, execute_on_destroy never reloads: the
module field and the exec counter are untouched. -/
theorem execute_on_destroy_module_some (env : LoadEnv) (b : CallOutcome) (w : World)
    (m : ModuleSpec) (hm : w.proc.module = some m) :
    (execute_on_destroy env b w).1.proc.module = some m ∧
    (execute_on_destroy env b w).1.execs = w.execs := by
  simp only [execute_on_destroy, hm]
  split
  · obtain ⟨r1, r2, _, _⟩ := runHandlerCall_frame "on_destroy" b w
    exact ⟨by rw [r1, hm], r2⟩
  · exact ⟨hm, rfl⟩

/-- From the unloaded state, execute_on_destroy either leaves the module
unloaded (missing file) or performs the single load. -/
theorem execute_on_destroy_module_none (env : LoadEnv) (b : CallOutcome) (w : World)
    (hm : w.proc.module = none) :
    ((execute_on_destroy env b w).1.proc.module = none ∧
     (execute_on_destroy env b w).1.execs = w.execs) ∨
    ((execute_on_destroy env b w).1.proc.module = some env.caps ∧
     (execute_on_destroy env b w).1.execs = w.execs + 1) := by
  simp only [execute_on_destroy, hm]
  rcases hl : _load_module env w with ⟨w1, oe⟩
  have hmod := _load_module_module env w
  rw [hl] at hmod
  obtain ⟨a1, a2, _⟩ := afterLoad_frame "on_destroy" env.caps.has_on_destroy b w1 oe
  rcases hmod with ⟨h1, h2⟩ | ⟨h1, h2⟩
  · exact Or.inl ⟨by rw [a1]; exact h1.trans hm, by rw [a2]; exact h2⟩
  · exact Or.inr ⟨by rw [a1]; exact h1, by rw [a2]; exact h2⟩

/-- handleOutcome only prints, so it changes no field besides the chunk
lists. -/
theorem handleOutcome_frame (et : Json) (res : Except Exn Json) (w : World) :
    (handleOutcome et res w).proc = w.proc ∧
    (handleOutcome et res w).execs = w.execs ∧
    (handleOutcome et res w).sink = w.sink ∧
    (handleOutcome et res w).calls = w.calls := by
  unfold handleOutcome
  rcases res with e | r
  · rcases e with m | ⟨m, tb⟩
    · exact print_error_frame _ _ w
    · exact print_error_frame _ _ w
  · cases r
    case null => exact print_output_frame _ _ _ w
    case bool b => exact print_error_frame _ _ w
    case num n => exact print_error_frame _ _ w
    case str s => exact print_error_frame _ _ w
    case arr xs => exact print_error_frame _ _ w
    case obj kvs => exact print_output_frame _ _ _ w

/-- dispatchEvent restores nothing itself: the sink is whatever it was
before. -/
theorem dispatchEvent_sink (env : LoadEnv) (b : CallOutcome) (et ed : Json)
    (w : World) :
    (dispatchEvent env b et ed w).1.sink = w.sink := by
  unfold dispatchEvent
  split
  · show (execute_with_timeout w.proc.timeout
      (execute_on_create env b ed w)).1.sink = w.sink
    rw [execute_with_timeout_fst]
    exact execute_on_create_sink env b ed w
  · split
    · show (execute_with_timeout w.proc.timeout
        (execute_on_receive env b ed w)).1.sink = w.sink
      rw [execute_with_timeout_fst]
      exact execute_on_receive_sink env b ed w
    · split
      · show (execute_with_timeout w.proc.timeout
          (execute_on_destroy env b w)).1.sink = w.sink
        rw [execute_with_timeout_fst]
        exact execute_on_destroy_sink env b w
      · exact (print_error_frame _ _ _).2.2.1

/-- With the module already loaded, dispatchEvent never reloads. -/
theorem dispatchEvent_module_some (env : LoadEnv) (b : CallOutcome)
    (et ed : Json) (w : World) (m : ModuleSpec) (hm : w.proc.module = some m) :
    (dispatchEvent env b et ed w).1.proc.module = some m ∧
    (dispatchEvent env b et ed w).1.execs = w.execs := by
  unfold dispatchEvent
  split
  · show (execute_with_timeout w.proc.timeout
      (execute_on_create env b ed w)).1.proc.module = some m ∧
      (execute_with_timeout w.proc.timeout
        (execute_on_create env b ed w)).1.execs = w.execs
    rw [execute_with_timeout_fst]
    exact execute_on_create_module_some env b ed w m hm
  · split
    · show (execute_with_timeout w.proc.timeout
        (execute_on_receive env b ed w)).1.proc.module = some m ∧
        (execute_with_timeout w.proc.timeout
          (execute_on_receive env b ed w)).1.execs = w.execs
      rw [execute_with_timeout_fst]
      exact execute_on_receive_module_some env b ed w m hm
    · split
      · show (execute_with_timeout w.proc.timeout
          (execute_on_destroy env b w)).1.proc.module = some m ∧
          (execute_with_timeout w.proc.timeout
            (execute_on_destroy env b w)).1.execs = w.execs
        rw [execute_with_timeout_fst]
        exact execute_on_destroy_module_some env b w m hm
      · obtain ⟨p1, p2, _, _⟩ := print_error_frame et
          ("Unknown event type: " ++ et.pyStr) w
        exact ⟨by rw [p1, hm], p2⟩

/-- From the unloaded state, dispatchEvent either leaves the module
unloaded or performs the single load. -/
theorem dispatchEvent_module_none (env : LoadEnv) (b : CallOutcome)
    (et ed : Json) (w : World) (hm : w.proc.module = none) :
    ((dispatchEvent env b et ed w).1.proc.module = none ∧
     (dispatchEvent env b et ed w).1.execs = w.execs) ∨
    ((dispatchEvent env b et ed w).1.proc.module = some env.caps ∧
     (dispatchEvent env b et ed w).1.execs = w.execs + 1) := by
  unfold dispatchEvent
  split
  · show ((execute_with_timeout w.proc.timeout
        (execute_on_create env b ed w)).1.proc.module = none ∧
      (execute_with_timeout w.proc.timeout
        (execute_on_create env b ed w)).1.execs = w.execs) ∨
      ((execute_with_timeout w.proc.timeout
        (execute_on_create env b ed w)).1.proc.module = some env.caps ∧
      (execute_with_timeout w.proc.timeout
        (execute_on_create env b ed w)).1.execs = w.execs + 1)
    rw [execute_with_timeout_fst]
    exact execute_on_create_module_none env b ed w hm
  · split
    · show ((execute_with_timeout w.proc.timeout
          (execute_on_receive env b ed w)).1.proc.module = none ∧
        (execute_with_timeout w.proc.timeout
          (execute_on_receive env b ed w)).1.execs = w.execs) ∨
        ((execute_with_timeout w.proc.timeout
          (execute_on_receive env b ed w)).1.proc.module = some env.caps ∧
        (execute_with_timeout w.proc.timeout
          (execute_on_receive env b ed w)).1.execs = w.execs + 1)
      rw [execute_with_timeout_fst]
      exact execute_on_receive_module_none env b ed w hm
    · split
      · show ((execute_with_timeout w.proc.timeout
            (execute_on_destroy env b w)).1.proc.module = none ∧
          (execute_with_timeout w.proc.timeout
            (execute_on_destroy env b w)).1.execs = w.execs) ∨
          ((execute_with_timeout w.proc.timeout
            (execute_on_destroy env b w)).1.proc.module = some env.caps ∧
          (execute_with_timeout w.proc.timeout
            (execute_on_destroy env b w)).1.execs = w.execs + 1)
        rw [execute_with_timeout_fst]
        exact execute_on_destroy_module_none env b w hm
      · obtain ⟨p1, p2, _, _⟩ := print_error_frame et
          ("Unknown event type: " ++ et.pyStr) w
        exact Or.inl ⟨by rw [p1, hm], p2⟩

/-- The interceptor entered for a dispatched line is restored on every
exit path of the loop body: processLine always hands back the sink it
received. -/
theorem processLine_sink (env : LoadEnv) (l : Line) (w : World) :
    (processLine env l w).1.sink = w.sink := by
  rcases l with raw | ⟨v, b⟩
  · rfl
  · rcases v with _ | b2 | n | s | xs | kvs
    · rfl
    · rfl
    · rfl
    · rfl
    · rfl
    · simp only [processLine]
      rcases hd : dispatchEvent env b (JsonPairs.get kvs "Event")
        (JsonPairs.get kvs "Data") { w with sink := Sink.interceptor }
        with ⟨w1, o⟩
      cases o with
      | none => rfl
      | some res =>
          exact (handleOutcome_frame (JsonPairs.get kvs "Event") res
            { w1 with sink := w.sink }).2.2.1

/-- With the module already loaded, the loop body never reloads and the
module field keeps its value. -/
theorem processLine_module_some (env : LoadEnv) (l : Line) (w : World)
    (m : ModuleSpec) (hm : w.proc.module = some m) :
    (processLine env l w).1.proc.module = some m ∧
    (processLine env l w).1.execs = w.execs := by
  rcases l with raw | ⟨v, b⟩
  · exact ⟨hm, rfl⟩
  · rcases v with _ | b2 | n | s | xs | kvs
    · exact ⟨hm, rfl⟩
    · exact ⟨hm, rfl⟩
    · exact ⟨hm, rfl⟩
    · exact ⟨hm, rfl⟩
    · exact ⟨hm, rfl⟩
    · simp only [processLine]
      rcases hd : dispatchEvent env b (JsonPairs.get kvs "Event")
        (JsonPairs.get kvs "Data") { w with sink := Sink.interceptor }
        with ⟨w1, o⟩
      have hds := dispatchEvent_module_some env b (JsonPairs.get kvs "Event")
        (JsonPairs.get kvs "Data") { w with sink := Sink.interceptor } m hm
      rw [hd] at hds
      cases o with
      | none => exact hds
      | some res =>
          obtain ⟨q1, q2, _, _⟩ := handleOutcome_frame
            (JsonPairs.get kvs "Event") res { w1 with sink := w.sink }
          exact ⟨by rw [q1]; exact hds.1, by rw [q2]; exact hds.2⟩

/-- From the unloaded state, the loop body either leaves the module
unloaded or performs the single load. -/
theorem processLine_module_none (env : LoadEnv) (l : Line) (w : World)
    (hm : w.proc.module = none) :
    ((processLine env l w).1.proc.module = none ∧
     (processLine env l w).1.execs = w.execs) ∨
    ((processLine env l w).1.proc.module = some env.caps ∧
     (processLine env l w).1.execs = w.execs + 1) := by
  rcases l with raw | ⟨v, b⟩
  · exact Or.inl ⟨hm, rfl⟩
  · rcases v with _ | b2 | n | s | xs | kvs
    · exact Or.inl ⟨hm, rfl⟩
    · exact Or.inl ⟨hm, rfl⟩
    · exact Or.inl ⟨hm, rfl⟩
    · exact Or.inl ⟨hm, rfl⟩
    · exact Or.inl ⟨hm, rfl⟩
    · simp only [processLine]
      rcases hd : dispatchEvent env b (JsonPairs.get kvs "Event")
        (JsonPairs.get kvs "Data") { w with sink := Sink.interceptor }
        with ⟨w1, o⟩
      have hds := dispatchEvent_module_none env b (JsonPairs.get kvs "Event")
        (JsonPairs.get kvs "Data") { w with sink := Sink.interceptor } hm
      rw [hd] at hds
      cases o with
      | none => exact hds
      | some res =>
          obtain ⟨q1, q2, _, _⟩ := handleOutcome_frame
            (JsonPairs.get kvs "Event") res { w1 with sink := w.sink }
          rcases hds with ⟨h1, h2⟩ | ⟨h1, h2⟩
          · exact Or.inl ⟨by rw [q1]; exact h1, by rw [q2]; exact h2⟩
          · exact Or.inr ⟨by rw [q1]; exact h1, by rw [q2]; exact h2⟩

/-- Over a whole run, a loaded module is never replaced and the exec
counter never moves again. -/
theorem start_listening_module_some (env : LoadEnv) (lines : List Line) :
    ∀ (w : World) (m : ModuleSpec), w.proc.module = some m →
    (start_listening env lines w).1.proc.module = some m ∧
    (start_listening env lines w).1.execs = w.execs := by
  induction lines with
  | nil => intro w m hm; exact ⟨hm, rfl⟩
  | cons l rest ih =>
      intro w m hm
      unfold start_listening
      rcases hp : processLine env l w with ⟨w1, o⟩
      have hpm := processLine_module_some env l w m hm
      rw [hp] at hpm
      cases o with
      | none =>
          obtain ⟨i1, i2⟩ := ih w1 m hpm.1
          exact ⟨i1, i2.trans hpm.2⟩
      | some e => exact hpm

/-- Over a whole run from the unloaded state, the module is loaded at most
once: the exec counter ends at its initial value or one above it, with the
module field correspondingly still None or carrying the loaded module. -/
theorem start_listening_module_none (env : LoadEnv) (lines : List Line) :
    ∀ (w : World), w.proc.module = none →
    ((start_listening env lines w).1.proc.module = none ∧
     (start_listening env lines w).1.execs = w.execs) ∨
    ((start_listening env lines w).1.proc.module = some env.caps ∧
     (start_listening env lines w).1.execs = w.execs + 1) := by
  induction lines with
  | nil => intro w hm; exact Or.inl ⟨hm, rfl⟩
  | cons l rest ih =>
      intro w hm
      unfold start_listening
      rcases hp : processLine env l w with ⟨w1, o⟩
      have hpm := processLine_module_none env l w hm
      rw [hp] at hpm
      cases o with
      | none =>
          rcases hpm with ⟨h1, h2⟩ | ⟨h1, h2⟩
          · rcases ih w1 h1 with ⟨i1, i2⟩ | ⟨i1, i2⟩
            · exact Or.inl ⟨i1, by rw [i2, h2]⟩
            · exact Or.inr ⟨i1, by rw [i2, h2]⟩
          · obtain ⟨i1, i2⟩ := start_listening_module_some env rest w1
              env.caps h1
            exact Or.inr ⟨i1, by rw [i2, h2]⟩
      | some e => exact hpm

/-- On a recognized event whose capability is present on the loaded
module, dispatchEvent is exactly the timed handler invocation. -/
theorem dispatchEvent_known (env : LoadEnv) (b : CallOutcome)
    (ename : String) (dta : Json) (w : World) (m : ModuleSpec)
    (hname : ename = "OnCreate" ∨ ename = "OnReceive" ∨ ename = "OnDestroy")
    (hm : w.proc.module = some m) (hcap : capFor m ename = true) :
    dispatchEvent env b (.str ename) dta w =
      ((execute_with_timeout w.proc.timeout
          (runHandlerCall (capMethodName ename) b w)).1,
       some (execute_with_timeout w.proc.timeout
          (runHandlerCall (capMethodName ename) b w)).2) := by
  rcases hname with h | h | h <;> subst h <;>
    simp_all [dispatchEvent, Json.beqStr, capFor, capMethodName,
      execute_on_create, execute_on_receive, execute_on_destroy]

/-- On a recognized event with loaded module and present capability, the
loop body routes the oracle outcome through execute_with_timeout and
handleOutcome, with the handler invocation recorded while the interceptor
was active and the sink restored afterwards. -/
theorem processLine_known (env : LoadEnv) (b : CallOutcome)
    (ename : String) (dta : Json) (w : World) (m : ModuleSpec)
    (hname : ename = "OnCreate" ∨ ename = "OnReceive" ∨ ename = "OnDestroy")
    (hm : w.proc.module = some m) (hcap : capFor m ename = true) :
    processLine env (.decoded (requestObj ename dta) b) w =
      (handleOutcome (.str ename)
        (execute_with_timeout w.proc.timeout
          (runHandlerCall (capMethodName ename) b
            { w with sink := .interceptor })).2
        { (execute_with_timeout w.proc.timeout
            (runHandlerCall (capMethodName ename) b
              { w with sink := .interceptor })).1
          with sink := w.sink }, none) := by
  have hget1 : JsonPairs.get (.cons "Event" (.str ename)
      (.cons "Data" dta .nil)) "Event" = .str ename := rfl
  have hget2 : JsonPairs.get (.cons "Event" (.str ename)
      (.cons "Data" dta .nil)) "Data" = dta := rfl
  have hmI : ({ w with sink := Sink.interceptor } : World).proc.module
      = some m := hm
  have hd := dispatchEvent_known env b ename dta
    { w with sink := Sink.interceptor } m hname hmI hcap
  simp only [processLine, requestObj, hget1, hget2, hd]

/-- On a decodable object whose Event value is a string outside the three
recognized names, the loop body prints the unknown-event diagnostic and
the error response while the interceptor is still active, invokes nothing,
and continues. -/
theorem processLine_unknown (env : LoadEnv) (b : CallOutcome) (w : World)
    (kvs : JsonPairs) (s : String)
    (hEvent : JsonPairs.get kvs "Event" = .str s)
    (h1 : (s == "OnCreate") = false) (h2 : (s == "OnReceive") = false)
    (h3 : (s == "OnDestroy") = false) :
    processLine env (.decoded (.obj kvs) b) w =
      ({ w with
          stdoutChunks := w.stdoutChunks ++
            [get_standard_output_message (errorLine (.str s))],
          stderrChunks := w.stderrChunks ++
            ["Unknown event type: " ++ s ++ "\n", "\n"] }, none) := by
  simp only [processLine, hEvent, dispatchEvent, Json.beqStr, h1, h2, h3,
    Bool.false_eq_true, if_false, Json.pyStr]
  rw [print_error_spec]

/-- Dispatched event whose handler call returns: the invocation is
recorded, and the ok response with the double-encoded payload (or the
default payload for a None result) is printed on the restored real
stdout. -/
theorem processLine_ok (env : LoadEnv) (w : World) (ename : String)
    (dta r : Json) (m : ModuleSpec)
    (hname : ename = "OnCreate" ∨ ename = "OnReceive" ∨ ename = "OnDestroy")
    (hm : w.proc.module = some m) (hcap : capFor m ename = true)
    (hsink : w.sink = .real)
    (hr : r = .null ∨ ∃ kvs, r = .obj kvs) :
    processLine env (.decoded (requestObj ename dta) (.returns [] r)) w =
      ({ w with
          calls := w.calls ++ [capMethodName ename],
          stdoutChunks := w.stdoutChunks ++
            [responseLine (.str ename) "ok"
              (Json.dumps (match r with
                | .null => defaultResult
                | other => other)), "\n"] }, none) := by
  rw [processLine_known env (.returns [] r) ename dta w m hname hm hcap]
  rcases hr with hr | ⟨kvs2, hr⟩ <;> subst hr
  · show (print_output (Json.str ename) "ok" (Json.dumps defaultResult)
        { w with calls := w.calls ++ [capMethodName ename] }, none) = _
    rw [print_output_spec]
    simp [hsink]
  · show (print_output (Json.str ename) "ok" (Json.dumps (Json.obj kvs2))
        { w with calls := w.calls ++ [capMethodName ename] }, none) = _
    rw [print_output_spec]
    simp [hsink]

/-- Dispatched event whose handler call does not finish in time: the
TimeoutError is caught after the interceptor is gone, the fixed timeout
diagnostic goes to stderr, the error response to the real stdout, and the
loop continues. -/
theorem processLine_hang (env : LoadEnv) (w : World) (ename : String)
    (dta : Json) (m : ModuleSpec)
    (hname : ename = "OnCreate" ∨ ename = "OnReceive" ∨ ename = "OnDestroy")
    (hm : w.proc.module = some m) (hcap : capFor m ename = true)
    (hsink : w.sink = .real) :
    processLine env (.decoded (requestObj ename dta) (.hangs [])) w =
      ({ w with
          calls := w.calls ++ [capMethodName ename],
          stdoutChunks := w.stdoutChunks ++ [errorLine (.str ename), "\n"],
          stderrChunks := w.stderrChunks ++
            ["Error: Function timed out\n", "\n"] }, none) := by
  rw [processLine_known env (.hangs []) ename dta w m hname hm hcap]
  show (print_error (Json.str ename) "Error: Function timed out"
      { w with calls := w.calls ++ [capMethodName ename] }, none) = _
  rw [print_error_spec]
  simp [hsink]

/-- Dispatched event whose handler call raises a non-timeout exception:
the exception is re-raised out of execute_with_timeout, caught after the
interceptor is gone, reported to stderr with the filtered traceback, the
error response goes to the real stdout, and the loop continues. -/
theorem processLine_raise (env : LoadEnv) (w : World) (ename : String)
    (dta : Json) (m : ModuleSpec) (msg : String) (tb : List Frame)
    (hname : ename = "OnCreate" ∨ ename = "OnReceive" ∨ ename = "OnDestroy")
    (hm : w.proc.module = some m) (hcap : capFor m ename = true)
    (hsink : w.sink = .real) :
    processLine env
      (.decoded (requestObj ename dta) (.raises [] (.otherErr msg tb))) w =
      ({ w with
          calls := w.calls ++ [capMethodName ename],
          stdoutChunks := w.stdoutChunks ++ [errorLine (.str ename), "\n"],
          stderrChunks := w.stderrChunks ++
            ["Error: " ++ msg ++ "\nProcessor traceback:\n" ++
              filter_processor_traceback w.proc.filename tb ++ "\n", "\n"] },
       none) := by
  rw [processLine_known env (.raises [] (.otherErr msg tb)) ename dta w m
    hname hm hcap]
  show (print_error (Json.str ename)
      ("Error: " ++ msg ++ "\nProcessor traceback:\n" ++
        filter_processor_traceback
          ({ w with calls := w.calls ++ [capMethodName ename] } : World).proc.filename tb)
      { w with calls := w.calls ++ [capMethodName ename] }, none) = _
  rw [print_error_spec]
  simp [hsink]

/-- A cons step of the dispatch loop. -/
theorem start_listening_cons (env : LoadEnv) (l : Line) (rest : List Line)
    (w : World) :
    start_listening env (l :: rest) w =
      (match processLine env l w with
       | (w1, some e) => (w1, some e)
       | (w1, none) => start_listening env rest w1) := rfl

/-- C1 (amended): every recoverable error path converges on print_error,
which writes the full diagnostic (plus a blank line) to the diagnostic
stream and emits one response with Status error whose Data field is the
JSON-encoded string of the dict with status error and message see error
log for details — double-encoded, not the bare marker string; when stdout
is still intercepted (the unknown-event path) that response line is
itself wrapped as a StandardOutput event on the real output stream. -/
theorem C1_error_response_shape (ev : Json) (msg : String) (w : World) :
    print_error ev msg w =
      { w with
        stderrChunks := w.stderrChunks ++ [msg ++ "\n", "\n"],
        stdoutChunks := w.stdoutChunks ++
          (match w.sink with
           | .real => [errorLine ev, "\n"]
           | .interceptor => [get_standard_output_message (errorLine ev)]) } :=
  print_error_spec ev msg w

/-- C1 counterexample: a timed-out OnCreate call emits an error response
whose line is not the claimed shape carrying the literal Data string
see error log for details: the Data field holds the JSON-encoded error
dict instead. -/
theorem C1_counterexample :
    (start_listening env0
      [.decoded (requestObj "OnCreate" .null) (.hangs [])]
      wLoaded).1.stdoutChunks = [errorLine (.str "OnCreate"), "\n"] ∧
    errorLine (.str "OnCreate") ≠
      responseLine (.str "OnCreate") "error" "see error log for details" := by
  exact ⟨rfl, by decide⟩

/-- C2: a successfully dispatched event whose handler call returns a
mapping is answered with Status ok and a Data field holding the
JSON-encoded string of that mapping (double-encoded); a handler call
returning nothing has the default payload substituted before encoding. -/
theorem C2_success_payload (env : LoadEnv) (w : World) (ename : String)
    (dta r : Json) (m : ModuleSpec) (rest : List Line)
    (hname : ename = "OnCreate" ∨ ename = "OnReceive" ∨ ename = "OnDestroy")
    (hm : w.proc.module = some m) (hcap : capFor m ename = true)
    (hsink : w.sink = .real)
    (hr : r = .null ∨ ∃ kvs, r = .obj kvs) :
    start_listening env
      (.decoded (requestObj ename dta) (.returns [] r) :: rest) w =
      start_listening env rest
        { w with
          calls := w.calls ++ [capMethodName ename],
          stdoutChunks := w.stdoutChunks ++
            [okLine (.str ename)
              (Json.dumps (match r with
                | .null => defaultResult
                | other => other)), "\n"] } := by
  rw [start_listening_cons,
    processLine_ok env w ename dta r m hname hm hcap hsink hr]
  rfl

/-- C2 witness: an OnCreate handler returning the mapping with x mapped
to one yields the doubly encoded response of the spec example. -/
theorem C2_witness :
    wLoaded.proc.module = some allCaps ∧
    capFor allCaps "OnCreate" = true ∧
    wLoaded.sink = .real ∧
    start_listening env0
      [.decoded (requestObj "OnCreate" .null)
        (.returns [] (.obj (.cons "x" (.num 1) .nil)))] wLoaded =
      start_listening env0 []
        { wLoaded with
          calls := ["on_create"],
          stdoutChunks :=
            [okLine (.str "OnCreate")
              (Json.dumps (Json.obj (.cons "x" (.num 1) .nil))), "\n"] } ∧
    okLine (.str "OnCreate") (Json.dumps (Json.obj (.cons "x" (.num 1) .nil)))
      = "\x7b\"Event\": \"OnCreate\", \"Status\": \"ok\", \"Data\": \"\x7b\\\"x\\\": 1\x7d\"\x7d" :=
  ⟨rfl, rfl, rfl,
   C2_success_payload env0 wLoaded "OnCreate" .null
     (.obj (.cons "x" (.num 1) .nil)) allCaps [] (Or.inl rfl) rfl rfl rfl
     (Or.inr ⟨_, rfl⟩),
   rfl⟩

/-- C3 (amended): a line that fails to decode terminates the loop at once
with the uncaught ValueError, producing no per-line response and leaving
the world untouched; it is however not the only halting input condition
(see the counterexample: a decodable non-object line also halts). -/
theorem C3_bad_decode_fatal (env : LoadEnv) (raw : String)
    (rest : List Line) (w : World) :
    start_listening env (.badDecode raw :: rest) w =
      (w, some (.otherErr ("Invalid input format: " ++ raw) [])) := rfl

/-- C3 counterexample: a line that decodes fine (the number five) also
halts the loop, via the AttributeError from .get, so decoding failure is
not the only input condition that halts the loop. -/
theorem C3_counterexample :
    start_listening env0 [.decoded (.num 5) (.returns [] .null)] w0 =
      (w0, some (.otherErr
        "\x27int\x27 object has no attribute \x27get\x27" [])) := rfl

/-- C4 (amended): the traceback listing drops only the frames above the
first one attributable to the handler file and formats every frame from
that one down to the end of the chain — frames from other files deeper in
the call chain are kept; only when no frame at all matches is the fixed
placeholder emitted. -/
theorem C4_trailing_frames (filename : String) (tb : List Frame) :
    filter_processor_traceback filename tb =
      (match tb.dropWhile (fun f => !(strContains f.co_filename filename)) with
       | [] => "No relevant stack trace found from the processor script."
       | f :: r => String.join ((f :: r).map Frame.formatted)) := by
  induction tb with
  | nil => rfl
  | cons f t ih =>
      have hstep : filter_processor_traceback filename (f :: t)
          = (if strContains f.co_filename filename = true
             then String.join ((f :: t).map Frame.formatted)
             else filter_processor_traceback filename t) := by
        unfold filter_processor_traceback
        simp only [tbChain, List.filter_cons]
        rcases Bool.eq_false_or_eq_true (strContains f.co_filename filename)
          with hp | hp <;> simp [hp, filter_processor_traceback]
      rw [hstep, List.dropWhile_cons]
      rcases Bool.eq_false_or_eq_true (strContains f.co_filename filename)
        with hp | hp
      · simp [hp]
      · simp only [hp, Bool.not_false, eq_self_iff_true, if_true]
        exact ih

/-- C4 counterexample: with a traceback of a host frame above a handler
frame above a helper frame, the listing holds the helper frame as well,
although its file is not the handler file. -/
theorem C4_counterexample :
    filter_processor_traceback "another_main.py"
      [{ co_filename := "/app/test.py", formatted := "host frame\n" },
       { co_filename := "/app/another_main.py", formatted := "handler frame\n" },
       { co_filename := "/app/calculator/helper.py", formatted := "helper frame\n" }]
      = "handler frame\nhelper frame\n" ∧
    strContains "/app/calculator/helper.py" "another_main.py" = false := by
  exact ⟨rfl, by decide⟩

/-- C5: execute_with_timeout raises TimeoutError exactly when the call is
still running at the deadline and re-raises any stored exception as
itself; in both cases the dispatcher emits an error response for that
event and goes on with the remaining input lines. -/
theorem C5_timeout_vs_failure :
    (∀ (t : Nat) (w : World),
      execute_with_timeout t (w, .hung) =
        (w, .error (.timeoutErr
          ("Execution timed out after " ++ toString t ++ " seconds")))) ∧
    (∀ (t : Nat) (w : World) (e : Exn),
      execute_with_timeout t (w, .exc e) = (w, .error e)) ∧
    (∀ (env : LoadEnv) (w : World) (ename : String) (dta : Json)
        (m : ModuleSpec) (rest : List Line),
      (ename = "OnCreate" ∨ ename = "OnReceive" ∨ ename = "OnDestroy") →
      w.proc.module = some m → capFor m ename = true → w.sink = .real →
      start_listening env
        (.decoded (requestObj ename dta) (.hangs []) :: rest) w =
        start_listening env rest
          { w with
            calls := w.calls ++ [capMethodName ename],
            stdoutChunks := w.stdoutChunks ++ [errorLine (.str ename), "\n"],
            stderrChunks := w.stderrChunks ++
              ["Error: Function timed out\n", "\n"] }) ∧
    (∀ (env : LoadEnv) (w : World) (ename : String) (dta : Json)
        (m : ModuleSpec) (rest : List Line) (msg : String) (tb : List Frame),
      (ename = "OnCreate" ∨ ename = "OnReceive" ∨ ename = "OnDestroy") →
      w.proc.module = some m → capFor m ename = true → w.sink = .real →
      start_listening env
        (.decoded (requestObj ename dta)
          (.raises [] (.otherErr msg tb)) :: rest) w =
        start_listening env rest
          { w with
            calls := w.calls ++ [capMethodName ename],
            stdoutChunks := w.stdoutChunks ++ [errorLine (.str ename), "\n"],
            stderrChunks := w.stderrChunks ++
              ["Error: " ++ msg ++ "\nProcessor traceback:\n" ++
                filter_processor_traceback w.proc.filename tb ++ "\n",
               "\n"] }) := by
  refine ⟨fun t w => rfl, fun t w e => rfl, ?_, ?_⟩
  · intro env w ename dta m rest hname hm hcap hsink
    rw [start_listening_cons,
      processLine_hang env w ename dta m hname hm hcap hsink]
  · intro env w ename dta m rest msg tb hname hm hcap hsink
    rw [start_listening_cons,
      processLine_raise env w ename dta m msg tb hname hm hcap hsink]

/-- C5 witness: at the example state, a hanging OnCreate call and an
OnReceive call raising boom each produce one error response and leave the
loop running. -/
theorem C5_witness :
    wLoaded.proc.module = some allCaps ∧ wLoaded.sink = .real ∧
    start_listening env0
      [.decoded (requestObj "OnCreate" .null) (.hangs [])] wLoaded =
      start_listening env0 []
        { wLoaded with
          calls := ["on_create"],
          stdoutChunks := [errorLine (.str "OnCreate"), "\n"],
          stderrChunks := ["Error: Function timed out\n", "\n"] } ∧
    start_listening env0
      [.decoded (requestObj "OnReceive" .null)
        (.raises [] (.otherErr "boom" []))] wLoaded =
      start_listening env0 []
        { wLoaded with
          calls := ["on_receive"],
          stdoutChunks := [errorLine (.str "OnReceive"), "\n"],
          stderrChunks :=
            ["Error: boom\nProcessor traceback:\nNo relevant stack trace found from the processor script.\n",
             "\n"] } :=
  ⟨rfl, rfl,
   C5_timeout_vs_failure.2.2.1 env0 wLoaded "OnCreate" .null allCaps []
     (Or.inl rfl) rfl rfl rfl,
   C5_timeout_vs_failure.2.2.2 env0 wLoaded "OnReceive" .null allCaps []
     "boom" [] (Or.inr (Or.inl rfl)) rfl rfl rfl⟩

/-- C6: a decodable object whose Event value is a string outside the
three recognized names yields the diagnostic Unknown event type with that
value, an error response for that event, no handler capability
invocation, no module load, and the loop continues with the next line. -/
theorem C6_unknown_event (env : LoadEnv) (b : CallOutcome) (w : World)
    (kvs : JsonPairs) (s : String) (rest : List Line)
    (hEvent : JsonPairs.get kvs "Event" = .str s)
    (h1 : s ≠ "OnCreate") (h2 : s ≠ "OnReceive") (h3 : s ≠ "OnDestroy") :
    start_listening env (.decoded (.obj kvs) b :: rest) w =
      start_listening env rest
        { w with
          stdoutChunks := w.stdoutChunks ++
            [get_standard_output_message (errorLine (.str s))],
          stderrChunks := w.stderrChunks ++
            ["Unknown event type: " ++ s ++ "\n", "\n"] } := by
  rw [start_listening_cons,
    processLine_unknown env b w kvs s hEvent
      (beq_eq_false_iff_ne.mpr h1) (beq_eq_false_iff_ne.mpr h2)
      (beq_eq_false_iff_ne.mpr h3)]

/-- C6 witness: the request with Event OnFoo produces the unknown-event
diagnostic and response and does not halt the loop. -/
theorem C6_witness :
    JsonPairs.get (.cons "Event" (.str "OnFoo")
      (.cons "Data" (.obj .nil) .nil)) "Event" = .str "OnFoo" ∧
    ("OnFoo" : String) ≠ "OnCreate" ∧
    start_listening env0
      [.decoded (.obj (.cons "Event" (.str "OnFoo")
        (.cons "Data" (.obj .nil) .nil))) (.returns [] .null)] w0 =
      start_listening env0 []
        { w0 with
          stdoutChunks :=
            [get_standard_output_message (errorLine (.str "OnFoo"))],
          stderrChunks := ["Unknown event type: OnFoo\n", "\n"] } :=
  ⟨rfl, by decide,
   C6_unknown_event env0 (.returns [] .null) w0
     (.cons "Event" (.str "OnFoo") (.cons "Data" (.obj .nil) .nil))
     "OnFoo" [] rfl (by decide) (by decide) (by decide)⟩

/-- C7: the handler module is loaded at most once per process lifetime:
once the module field is set it never changes over any run, and starting
from a fresh state the count of module initializations over a whole run
is at most one. -/
theorem C7_single_load (env : LoadEnv) (f : String) (t : Nat)
    (lines : List Line) :
    (∀ (w : World) (m : ModuleSpec) (ls : List Line),
      w.proc.module = some m →
      (start_listening env ls w).1.proc.module = some m) ∧
    (start_listening env lines (World.init f t)).1.execs ≤ 1 := by
  constructor
  · intro w m ls hm
    exact (start_listening_module_some env ls w m hm).1
  · rcases start_listening_module_none env lines (World.init f t) rfl
      with ⟨_, h2⟩ | ⟨_, h2⟩
    · rw [h2]; exact Nat.zero_le 1
    · rw [h2]; exact Nat.le_refl 1

/-- C7 witness: a loaded module stays loaded over a run, and a fresh run
over one OnCreate line performs at most one initialization. -/
theorem C7_witness :
    wLoaded.proc.module = some allCaps ∧
    (start_listening env0
      [.decoded (requestObj "OnCreate" .null) (.returns [] .null)]
      wLoaded).1.proc.module = some allCaps ∧
    (start_listening env0
      [.decoded (requestObj "OnCreate" .null) (.returns [] .null)]
      (World.init "another_main.py" 60)).1.execs ≤ 1 :=
  ⟨rfl,
   (C7_single_load env0 "another_main.py" 60 []).1 wLoaded allCaps
     [.decoded (requestObj "OnCreate" .null) (.returns [] .null)] rfl,
   (C7_single_load env0 "another_main.py" 60
     [.decoded (requestObj "OnCreate" .null) (.returns [] .null)]).2⟩

/-- C8: while the interceptor owns stdout, a whitespace-only write is
dropped and any other write is immediately wrapped as a StandardOutput
event built from the stripped text; and the loop body hands the sink back
exactly as it received it on every exit path — normal return, error,
timeout, unknown event, or a line that terminates the loop. -/
theorem C8_interceptor_scoping :
    (∀ (w : World) (msg : String), w.sink = .interceptor →
      World.stdoutWrite w msg =
        (if pyStrip msg = "" then w
         else { w with stdoutChunks := w.stdoutChunks ++
                  [get_standard_output_message (pyStrip msg)] })) ∧
    (∀ (msg : String), get_standard_output_message msg =
      Json.dumps (.obj (.cons "Event" (.str "StandardOutput")
        (.cons "Status" (.str "ok")
          (.cons "Data" (.str msg) .nil)))) ++ "\n") ∧
    (∀ (env : LoadEnv) (l : Line) (w : World),
      (processLine env l w).1.sink = w.sink) := by
  refine ⟨?_, fun msg => rfl, processLine_sink⟩
  intro w msg hsink
  simp only [World.stdoutWrite, hsink]

/-- C8 witness: under the interceptor a write of text with a trailing
newline is wrapped from its stripped text, a pure newline write is
dropped, and a dispatched line returns the sink it received. -/
theorem C8_witness :
    ({ w0 with sink := Sink.interceptor } : World).sink = Sink.interceptor ∧
    World.stdoutWrite { w0 with sink := Sink.interceptor } "hi\n" =
      { w0 with
        sink := Sink.interceptor,
        stdoutChunks := [get_standard_output_message "hi"] } ∧
    World.stdoutWrite { w0 with sink := Sink.interceptor } "\n" =
      { w0 with sink := Sink.interceptor } ∧
    (processLine env0
      (.decoded (requestObj "OnCreate" .null) (.hangs [])) wLoaded).1.sink
      = wLoaded.sink :=
  ⟨rfl,
   C8_interceptor_scoping.1 { w0 with sink := Sink.interceptor } "hi\n" rfl,
   C8_interceptor_scoping.1 { w0 with sink := Sink.interceptor } "\n" rfl,
   C8_interceptor_scoping.2.2 env0
     (.decoded (requestObj "OnCreate" .null) (.hangs [])) wLoaded⟩

/-- C9: the unknown-event error response is printed while stdout is still
the interceptor, so the real output stream receives it wrapped as one
StandardOutput line; the timeout and handler-exception responses are
printed after restoration and appear as top-level error response lines. -/
theorem C9_unknown_response_wrapped :
    (∀ (env : LoadEnv) (b : CallOutcome) (w : World) (kvs : JsonPairs)
        (s : String),
      JsonPairs.get kvs "Event" = .str s →
      (s == "OnCreate") = false → (s == "OnReceive") = false →
      (s == "OnDestroy") = false →
      (processLine env (.decoded (.obj kvs) b) w).1.stdoutChunks =
        w.stdoutChunks ++
          [get_standard_output_message (errorLine (.str s))]) ∧
    (∀ (env : LoadEnv) (w : World) (ename : String) (dta : Json)
        (m : ModuleSpec),
      (ename = "OnCreate" ∨ ename = "OnReceive" ∨ ename = "OnDestroy") →
      w.proc.module = some m → capFor m ename = true → w.sink = .real →
      (processLine env
        (.decoded (requestObj ename dta) (.hangs [])) w).1.stdoutChunks =
        w.stdoutChunks ++ [errorLine (.str ename), "\n"]) ∧
    (∀ (env : LoadEnv) (w : World) (ename : String) (dta : Json)
        (m : ModuleSpec) (msg : String) (tb : List Frame),
      (ename = "OnCreate" ∨ ename = "OnReceive" ∨ ename = "OnDestroy") →
      w.proc.module = some m → capFor m ename = true → w.sink = .real →
      (processLine env
        (.decoded (requestObj ename dta)
          (.raises [] (.otherErr msg tb))) w).1.stdoutChunks =
        w.stdoutChunks ++ [errorLine (.str ename), "\n"]) := by
  refine ⟨?_, ?_, ?_⟩
  · intro env b w kvs s hEvent h1 h2 h3
    rw [processLine_unknown env b w kvs s hEvent h1 h2 h3]
  · intro env w ename dta m hname hm hcap hsink
    rw [processLine_hang env w ename dta m hname hm hcap hsink]
  · intro env w ename dta m msg tb hname hm hcap hsink
    rw [processLine_raise env w ename dta m msg tb hname hm hcap hsink]

/-- C9 witness: the OnFoo request leaves one wrapped StandardOutput line
on the real stdout, while a timed-out OnCreate call leaves a top-level
error response line. -/
theorem C9_witness :
    JsonPairs.get (.cons "Event" (.str "OnFoo")
      (.cons "Data" (.obj .nil) .nil)) "Event" = .str "OnFoo" ∧
    (processLine env0
      (.decoded (.obj (.cons "Event" (.str "OnFoo")
        (.cons "Data" (.obj .nil) .nil))) (.returns [] .null))
      w0).1.stdoutChunks =
      [get_standard_output_message (errorLine (.str "OnFoo"))] ∧
    (processLine env0
      (.decoded (requestObj "OnCreate" .null) (.hangs []))
      wLoaded).1.stdoutChunks = [errorLine (.str "OnCreate"), "\n"] :=
  ⟨rfl,
   C9_unknown_response_wrapped.1 env0 (.returns [] .null) w0
     (.cons "Event" (.str "OnFoo") (.cons "Data" (.obj .nil) .nil))
     "OnFoo" rfl (by decide) (by decide) (by decide),
   C9_unknown_response_wrapped.2.1 env0 wLoaded "OnCreate" .null allCaps
     (Or.inl rfl) rfl rfl rfl⟩

/-- C10: a line that decodes as valid JSON but not as an object does not
take the protocol-error path: the .get attribute access raises an
AttributeError naming the Python type, which halts the loop with no
response and without the Invalid input format diagnostic. -/
theorem C10_nonobject_line_halts (env : LoadEnv) (b : CallOutcome)
    (v : Json) (w : World) (rest : List Line)
    (hv : v.isObj = false) :
    start_listening env (.decoded v b :: rest) w =
      (w, some (.otherErr
        ("\x27" ++ v.pyTypeName ++ "\x27 object has no attribute \x27get\x27")
        [])) := by
  rcases v with _ | b2 | n | s | xs | kvs
  · rfl
  · rfl
  · rfl
  · rfl
  · rfl
  · simp [Json.isObj] at hv

/-- C10 witness: the decodable line holding the number five halts the
loop with the int AttributeError and no output. -/
theorem C10_witness :
    (Json.num 5).isObj = false ∧
    start_listening env0 [.decoded (.num 5) (.returns [] .null)] w0 =
      (w0, some (.otherErr
        "\x27int\x27 object has no attribute \x27get\x27" [])) :=
  ⟨rfl, C10_nonobject_line_halts env0 (.returns [] .null) (.num 5) w0 [] rfl⟩

end EventHost
